import Mathlib

/-
Verification of the shuttle-bedrock HTTP front-end (src/src/main.rs).

The program forwards user prompts to the Bedrock Titan model and relays the
generated text back, either as one response body (handler prompt, lines
40-70) or as a stream of text fragments (handler streamed_prompt, lines
72-119). We embed the data model, the request builder TitanRequest::new,
the per-pull logic of the stream::unfold closure, and the two handlers.

External effects are modelled as explicit function parameters:
serde_json::to_vec is an encode function returning Option Bytes,
serde_json::from_slice::<TitanResponse> is a decode function returning
Option TitanResponse, and the Bedrock client invocation is a function from
model id and payload to an Except value. Panics (Rust unwrap on an Err or
a None) are modelled as explicit panicked outcomes.
-/

/-- Raw byte payloads (Rust Vec<u8> / Blob contents). -/
abbrev Bytes : Type := List Nat

/-- One candidate completion (struct TitanTextResult, main.rs lines 32-38). -/
structure TitanTextResult where
  token_count : Int
  output_text : String
  completion_reason : String
deriving DecidableEq, Repr

/-- The provider response (struct TitanResponse, main.rs lines 25-30). -/
structure TitanResponse where
  input_text_token_count : Int
  results : List TitanTextResult
deriving DecidableEq, Repr

/-- The fixed generation configuration (struct TextGenConfig, main.rs
lines 142-149). Temperature and top_p are f32 in the source; only the
literal value 0.0 is ever stored, so Float models them adequately. -/
structure TextGenConfig where
  temperature : Float
  top_p : Float
  max_token_count : Int
  stop_sequences : List String

/-- The outbound payload (struct TitanRequest, main.rs lines 121-126). -/
structure TitanRequest where
  input_text : String
  text_generation_config : TextGenConfig

/-- TitanRequest::new (main.rs lines 128-140): the prompt plus the fixed
configuration temperature 0.0, top_p 0.0, max_token_count 100 and the
single stop sequence "|". -/
def TitanRequest.new (prompt : String) : TitanRequest :=
  ⟨prompt, ⟨0.0, 0.0, 100, ["|"]⟩⟩

/-- firstText of the spec (section 4.1): the output text of the first
candidate of a GenerationResult; none models EmptyResultError. In the
source this is the inline pattern response_body.results.first(). -/
def firstText (r : TitanResponse) : Option String :=
  (r.results.head?).map fun t => t.output_text

/-- The first candidate text with a default, used to state what a
well-formed chunk contributes to the stream. -/
def firstOut (r : TitanResponse) : String :=
  (firstText r).getD ""

/-- One message of the provider streaming protocol (enum ResponseStream of
the SDK): a data-bearing chunk whose PayloadPart carries optional bytes, or
any non-data control variant, collapsed into one constructor because the
source matches them all with a single wildcard arm (main.rs line 112). -/
inductive RespStream where
  | Chunk (bytes : Option Bytes)
  | other
deriving DecidableEq, Repr

/-- The outcome of one recv() call on the event receiver (main.rs line 93):
err models an Err from the channel, ok none models end-of-stream Ok(None),
ok (some m) models Ok(Some(m)). -/
inductive PullOutcome where
  | err
  | ok (m : Option RespStream)
deriving DecidableEq, Repr

/-- A data-bearing chunk whose bytes are present. -/
def dataChunk (b : Bytes) : PullOutcome :=
  PullOutcome.ok (some (RespStream.Chunk (some b)))

/-- How a run of the unfold loop ends: closed is the loop returning None
(the output sequence terminates), panicked is a Rust panic from unwrap on
an Err recv result or on absent chunk bytes. -/
inductive StreamEnd where
  | closed
  | panicked
deriving DecidableEq, Repr

/-- The stream::unfold loop of streamed_prompt (main.rs lines 92-114),
run against a ChunkSource modelled as the finite list of recv outcomes the
channel will deliver; an exhausted list keeps delivering end-of-stream.
Per pull: recv (unwrap panics on err); Ok(None) and any non-Chunk message
end the sequence; a Chunk has its bytes unwrapped (panic when absent),
decoded (decode failure ends the sequence), its first result extracted
(absence ends the sequence) and the output text emitted. Returns the
emitted fragments in order, how the run ended, and the recv outcomes never
pulled. -/
def runStream (decode : Bytes → Option TitanResponse) :
    List PullOutcome → List String × StreamEnd × List PullOutcome
  | [] => ([], StreamEnd.closed, [])
  | PullOutcome.err :: rest => ([], StreamEnd.panicked, rest)
  | PullOutcome.ok none :: rest => ([], StreamEnd.closed, rest)
  | PullOutcome.ok (some RespStream.other) :: rest => ([], StreamEnd.closed, rest)
  | PullOutcome.ok (some (RespStream.Chunk none)) :: rest => ([], StreamEnd.panicked, rest)
  | PullOutcome.ok (some (RespStream.Chunk (some b))) :: rest =>
    match decode b with
    | none => ([], StreamEnd.closed, rest)
    | some response_body =>
      match response_body.results.head? with
      | none => ([], StreamEnd.closed, rest)
      | some r =>
        let out := runStream decode rest
        (r.output_text :: out.1, out.2.1, out.2.2)

/-- The fixed model identifier passed to model_id on both paths (main.rs
lines 55 and 87). -/
def modelId : String := "amazon.titan-text-lite-v1:0:4k"

/-- Outcome of the non-streaming handler: a 200 body, an error status
code, or a panic from unwrap on a failed client call. -/
inductive HandlerResult where
  | ok (body : String)
  | errStatus (code : Nat)
  | panicked
deriving DecidableEq, Repr

/-- The non-streaming handler prompt (main.rs lines 40-70). Also returns
the list of (model id, payload) invocations made on the Bedrock client, so
that theorems can state which calls happened. Encoding failure gives 400
before any client call; a client error is unwrapped (panic); decode
failure or an empty results list gives 500; otherwise the first result
output text is the body. -/
def prompt (encode : TitanRequest → Option Bytes)
    (invoke : String → Bytes → Except Unit Bytes)
    (decode : Bytes → Option TitanResponse)
    (p : String) : HandlerResult × List (String × Bytes) :=
  match encode (TitanRequest.new p) with
  | none => (HandlerResult.errStatus 400, [])
  | some payload =>
    match invoke modelId payload with
    | Except.error _ => (HandlerResult.panicked, [(modelId, payload)])
    | Except.ok res =>
      match decode res with
      | none => (HandlerResult.errStatus 500, [(modelId, payload)])
      | some response_body =>
        match response_body.results.head? with
        | none => (HandlerResult.errStatus 500, [(modelId, payload)])
        | some r => (HandlerResult.ok r.output_text, [(modelId, payload)])

/-- Outcome of the streaming handler: a 400 status, a panic from unwrap on
a failed invoke_model_with_response_stream call, or a streamed body
described by the runStream result. -/
inductive StreamHandlerResult where
  | errStatus (code : Nat)
  | panicked
  | stream (fragments : List String) (ending : StreamEnd) (leftover : List PullOutcome)
deriving DecidableEq, Repr

/-- The streaming handler streamed_prompt (main.rs lines 72-119), with the
client invocation log as for prompt. The streaming client call yields the
ChunkSource (its future recv outcomes); a client error is unwrapped
(panic); otherwise the response body is the runStream output. -/
def streamed_prompt (encode : TitanRequest → Option Bytes)
    (invokeStreaming : String → Bytes → Except Unit (List PullOutcome))
    (decode : Bytes → Option TitanResponse)
    (p : String) : StreamHandlerResult × List (String × Bytes) :=
  match encode (TitanRequest.new p) with
  | none => (StreamHandlerResult.errStatus 400, [])
  | some message =>
    match invokeStreaming modelId message with
    | Except.error _ => (StreamHandlerResult.panicked, [(modelId, message)])
    | Except.ok body =>
      let out := runStream decode body
      (StreamHandlerResult.stream out.1 out.2.1 out.2.2, [(modelId, message)])

/-
Concrete material used by witnesses: sample results, responses, and
concrete encode, invoke and decode functions.
-/

/-- A sample candidate with output text alpha. -/
def resultA : TitanTextResult := ⟨3, "alpha", "FINISH"⟩

/-- A sample candidate with output text beta. -/
def resultB : TitanTextResult := ⟨4, "beta", "LENGTH"⟩

/-- A sample response whose single candidate is resultA. -/
def respA : TitanResponse := ⟨7, [resultA]⟩

/-- A sample response whose single candidate is resultB. -/
def respB : TitanResponse := ⟨8, [resultB]⟩

/-- A sample response with an empty candidate list. -/
def respEmpty : TitanResponse := ⟨0, []⟩

/-- A concrete decode function: byte payload 1 decodes to respA, 2 to
respB, everything else fails to decode. -/
def decodeW : Bytes → Option TitanResponse := fun b =>
  if b = [1] then some respA else if b = [2] then some respB else none

/-- A concrete encode function that always succeeds with payload 3. -/
def encodeW : TitanRequest → Option Bytes := fun _ => some [3]

/-- A concrete encode function that always fails. -/
def encodeFail : TitanRequest → Option Bytes := fun _ => none

/-- A concrete client invocation returning response bytes 1. -/
def invokeW : String → Bytes → Except Unit Bytes := fun _ _ => Except.ok [1]

/-- A concrete client invocation failing with a transport error. -/
def invokeErr : String → Bytes → Except Unit Bytes := fun _ _ => Except.error ()

/-- A concrete streaming invocation yielding an immediate end-of-stream. -/
def invokeSW : String → Bytes → Except Unit (List PullOutcome) := fun _ _ =>
  Except.ok [PullOutcome.ok none]

/-- C6: TitanRequest.new of the prompt hello has inputText hello,
temperature 0.0, topP 0.0, maxTokenCount 100 and stopSequences pipe;
for every prompt the configuration is this fixed one with exactly one
stop sequence, so no per-request override exists. -/
theorem c6_fixed_config :
    TitanRequest.new "hello" = ⟨"hello", ⟨0.0, 0.0, 100, ["|"]⟩⟩ ∧
    ∀ p : String,
      (TitanRequest.new p).input_text = p ∧
      (TitanRequest.new p).text_generation_config.temperature = 0.0 ∧
      (TitanRequest.new p).text_generation_config.top_p = 0.0 ∧
      (TitanRequest.new p).text_generation_config.max_token_count = 100 ∧
      (TitanRequest.new p).text_generation_config.stop_sequences = ["|"] ∧
      (TitanRequest.new p).text_generation_config.stop_sequences.length = 1 :=
  ⟨rfl, fun _ => ⟨rfl, rfl, rfl, rfl, rfl, rfl⟩⟩

/-- C7: a pull yielding a non-data control variant of the streaming
protocol terminates the output sequence at once, whatever decode function
is in use and whatever the channel would have delivered afterwards: no
fragment is emitted and no further pull happens. -/
theorem c7_control_variant_terminates
    (decode : Bytes → Option TitanResponse) (rest : List PullOutcome) :
    runStream decode (PullOutcome.ok (some RespStream.other) :: rest) =
      ([], StreamEnd.closed, rest) :=
  rfl

/-- C3 counterexample: with a concrete decode function and a source whose
first pull fails, the adapter run ends in a panic, not in the silent
closed termination the claim asserts. -/
theorem c3_counterexample :
    runStream decodeW [PullOutcome.err] = ([], StreamEnd.panicked, []) ∧
    StreamEnd.panicked ≠ StreamEnd.closed :=
  ⟨rfl, by decide⟩

/-- C3 amended: when a pull on the ChunkSource fails, the adapter unwraps
the Err recv result and panics; the output sequence ends by unhandled
termination, not by silently yielding no further elements. -/
theorem c3_recv_failure_panics
    (decode : Bytes → Option TitanResponse) (rest : List PullOutcome) :
    runStream decode (PullOutcome.err :: rest) = ([], StreamEnd.panicked, rest) :=
  rfl

/-- C1: a ChunkSource delivering the data chunks of ps in order (each
decoding to a response with at least one candidate) and then end-of-stream
makes the adapter emit exactly one fragment per chunk, equal to the first
candidate output text of that chunk, in arrival order, and then terminate;
the instance ps equal to nil gives the immediate end-of-stream case with
zero fragments, stated as the first conjunct. -/
theorem c1_streaming_order (decode : Bytes → Option TitanResponse)
    (ps : List (Bytes × TitanResponse))
    (h : ∀ q ∈ ps, decode q.1 = some q.2 ∧ q.2.results ≠ []) :
    runStream decode [PullOutcome.ok none] = ([], StreamEnd.closed, []) ∧
    runStream decode (ps.map (fun q => dataChunk q.1) ++ [PullOutcome.ok none]) =
      (ps.map (fun q => firstOut q.2), StreamEnd.closed, []) := by
  refine ⟨rfl, ?_⟩
  induction ps with
  | nil => rfl
  | cons q ps ih =>
    obtain ⟨hd, hn⟩ := h q (List.mem_cons_self q ps)
    obtain ⟨c, tl, hc⟩ := List.exists_cons_of_ne_nil hn
    have ih2 := ih fun r hr => h r (List.mem_cons_of_mem q hr)
    simp only [dataChunk, firstOut, firstText] at ih2 ⊢
    simp [runStream, hd, hc, ih2]

/-- C1 witness: two well-formed chunks, payloads 1 and 2, under the
concrete decode function decodeW. -/
theorem c1_witness :
    runStream decodeW [PullOutcome.ok none] = ([], StreamEnd.closed, []) ∧
    runStream decodeW
        (([([1], respA), ([2], respB)].map fun q => dataChunk q.1) ++ [PullOutcome.ok none]) =
      (([([1], respA), ([2], respB)].map fun q => firstOut q.2), StreamEnd.closed, []) :=
  c1_streaming_order decodeW [([1], respA), ([2], respB)] (by decide)

/-- C2: for a source of five data chunks whose first two decode to
responses with a candidate and whose third fails to decode, the adapter
emits exactly the two corresponding fragments and terminates, leaving the
fourth and fifth chunks unpulled. -/
theorem c2_malformed_third_chunk (decode : Bytes → Option TitanResponse)
    (b1 b2 b3 b4 b5 : Bytes) (r1 r2 : TitanResponse)
    (h1 : decode b1 = some r1) (h1n : r1.results ≠ [])
    (h2 : decode b2 = some r2) (h2n : r2.results ≠ [])
    (h3 : decode b3 = none) :
    runStream decode [dataChunk b1, dataChunk b2, dataChunk b3, dataChunk b4, dataChunk b5] =
      ([firstOut r1, firstOut r2], StreamEnd.closed, [dataChunk b4, dataChunk b5]) := by
  obtain ⟨c1, tl1, hc1⟩ := List.exists_cons_of_ne_nil h1n
  obtain ⟨c2, tl2, hc2⟩ := List.exists_cons_of_ne_nil h2n
  simp [dataChunk, runStream, h1, h2, h3, hc1, hc2, firstOut, firstText]

/-- C2 witness: payloads 1 and 2 decode under decodeW, payload 9 does not;
chunks with payloads 7 and 8 are left unpulled. -/
theorem c2_witness :
    runStream decodeW [dataChunk [1], dataChunk [2], dataChunk [9], dataChunk [7], dataChunk [8]] =
      ([firstOut respA, firstOut respB], StreamEnd.closed, [dataChunk [7], dataChunk [8]]) :=
  c2_malformed_third_chunk decodeW [1] [2] [9] [7] [8] respA respB
    (by decide) (by decide) (by decide) (by decide) (by decide)

/-- C4: firstText fails (is none) exactly when the candidate list is
empty, and on a nonempty list returns the first candidate output text; on
the non-streaming path, once encoding, invocation and decoding succeed, an
empty candidate list yields status 500 and a nonempty one yields a 200
body equal to the first candidate output text. -/
theorem c4_first_text (r : TitanResponse)
    (encode : TitanRequest → Option Bytes)
    (invoke : String → Bytes → Except Unit Bytes)
    (decode : Bytes → Option TitanResponse)
    (p : String) (pay res : Bytes) (body : TitanResponse)
    (henc : encode (TitanRequest.new p) = some pay)
    (hinv : invoke modelId pay = Except.ok res)
    (hdec : decode res = some body) :
    (firstText r = none ↔ r.results = []) ∧
    (∀ c tl, r.results = c :: tl → firstText r = some c.output_text) ∧
    (body.results = [] →
      prompt encode invoke decode p = (HandlerResult.errStatus 500, [(modelId, pay)])) ∧
    (∀ c tl, body.results = c :: tl →
      prompt encode invoke decode p = (HandlerResult.ok c.output_text, [(modelId, pay)])) := by
  refine ⟨?_, ?_, ?_, ?_⟩
  · cases hr : r.results <;> simp [firstText, hr]
  · intro c tl hr
    simp [firstText, hr]
  · intro hb
    simp [prompt, henc, hinv, hdec, hb]
  · intro c tl hb
    simp [prompt, henc, hinv, hdec, hb]

/-- C4 witness: respEmpty exercises the empty branch of firstText, and the
concrete handler run with encodeW, invokeW and decodeW reaches the decoded
body respA. -/
theorem c4_witness :
    (firstText respEmpty = none ↔ respEmpty.results = []) ∧
    (∀ c tl, respEmpty.results = c :: tl → firstText respEmpty = some c.output_text) ∧
    (respA.results = [] →
      prompt encodeW invokeW decodeW "hi" = (HandlerResult.errStatus 500, [(modelId, [3])])) ∧
    (∀ c tl, respA.results = c :: tl →
      prompt encodeW invokeW decodeW "hi" = (HandlerResult.ok c.output_text, [(modelId, [3])])) :=
  c4_first_text respEmpty encodeW invokeW decodeW "hi" [3] [1] respA rfl rfl (by decide)

/-- C5: when serializing the GenerationRequest fails, both handlers return
status 400 and the invocation log is empty, so the Inference Client is
never called for that request on either path. -/
theorem c5_encode_fail_no_invoke
    (encode : TitanRequest → Option Bytes)
    (invoke : String → Bytes → Except Unit Bytes)
    (invokeStreaming : String → Bytes → Except Unit (List PullOutcome))
    (decode : Bytes → Option TitanResponse)
    (p : String)
    (henc : encode (TitanRequest.new p) = none) :
    prompt encode invoke decode p = (HandlerResult.errStatus 400, []) ∧
    streamed_prompt encode invokeStreaming decode p = (StreamHandlerResult.errStatus 400, []) := by
  constructor
  · simp [prompt, henc]
  · simp [streamed_prompt, henc]

/-- C5 witness: the always-failing encode function encodeFail. -/
theorem c5_witness :
    prompt encodeFail invokeW decodeW "hi" = (HandlerResult.errStatus 400, []) ∧
    streamed_prompt encodeFail invokeSW decodeW "hi" = (StreamHandlerResult.errStatus 400, []) :=
  c5_encode_fail_no_invoke encodeFail invokeW invokeSW decodeW "hi" rfl

/-- C8: on the non-streaming path, when encoding succeeds but the client
invocation returns a transport error, the handler panics (the unwrap on
the send result) instead of producing any HTTP status. -/
theorem c8_transport_panic
    (encode : TitanRequest → Option Bytes)
    (invoke : String → Bytes → Except Unit Bytes)
    (decode : Bytes → Option TitanResponse)
    (p : String) (pay : Bytes)
    (henc : encode (TitanRequest.new p) = some pay)
    (hinv : invoke modelId pay = Except.error ()) :
    prompt encode invoke decode p = (HandlerResult.panicked, [(modelId, pay)]) := by
  simp [prompt, henc, hinv]

/-- C8 witness: the always-failing client invocation invokeErr. -/
theorem c8_witness :
    prompt encodeW invokeErr decodeW "hi" = (HandlerResult.panicked, [(modelId, [3])]) :=
  c8_transport_panic encodeW invokeErr decodeW "hi" [3] rfl rfl

/-- C9: a data-bearing chunk whose bytes field is absent makes the adapter
panic (the unwrap on the optional bytes), whereas a chunk whose bytes are
present but fail to decode silently terminates the sequence. -/
theorem c9_missing_bytes_panics
    (decode : Bytes → Option TitanResponse) (rest : List PullOutcome) (b : Bytes)
    (hdec : decode b = none) :
    runStream decode (PullOutcome.ok (some (RespStream.Chunk none)) :: rest) =
      ([], StreamEnd.panicked, rest) ∧
    runStream decode (dataChunk b :: rest) = ([], StreamEnd.closed, rest) := by
  refine ⟨rfl, ?_⟩
  simp [dataChunk, runStream, hdec]

/-- C9 witness: under decodeW the payload 9 fails to decode. -/
theorem c9_witness :
    runStream decodeW [PullOutcome.ok (some (RespStream.Chunk none))] =
      ([], StreamEnd.panicked, []) ∧
    runStream decodeW [dataChunk [9]] = ([], StreamEnd.closed, []) :=
  c9_missing_bytes_panics decodeW [] [9] (by decide)

/-- C10: every invocation recorded by either handler carries the fixed
model identifier, for every encode, invoke and decode function and every
prompt, so no request input can change the model used. -/
theorem c10_fixed_model_id
    (encode : TitanRequest → Option Bytes)
    (invoke : String → Bytes → Except Unit Bytes)
    (invokeStreaming : String → Bytes → Except Unit (List PullOutcome))
    (decode : Bytes → Option TitanResponse)
    (p : String) :
    (∀ call ∈ (prompt encode invoke decode p).2, call.1 = modelId) ∧
    (∀ call ∈ (streamed_prompt encode invokeStreaming decode p).2, call.1 = modelId) := by
  constructor
  · intro call hcall
    unfold prompt at hcall
    cases henc : encode (TitanRequest.new p) with
    | none => simp [henc] at hcall
    | some pay =>
      cases hinv : invoke modelId pay with
      | error e =>
        simp [henc, hinv] at hcall
        simp [hcall]
      | ok res =>
        cases hdec : decode res with
        | none =>
          simp [henc, hinv, hdec] at hcall
          simp [hcall]
        | some body =>
          cases hh : body.results.head? with
          | none =>
            simp [henc, hinv, hdec, hh] at hcall
            simp [hcall]
          | some r =>
            simp [henc, hinv, hdec, hh] at hcall
            simp [hcall]
  · intro call hcall
    unfold streamed_prompt at hcall
    cases henc : encode (TitanRequest.new p) with
    | none => simp [henc] at hcall
    | some pay =>
      cases hinv : invokeStreaming modelId pay with
      | error e =>
        simp [henc, hinv] at hcall
        simp [hcall]
      | ok body =>
        simp [henc, hinv] at hcall
        simp [hcall]

/-- C10 witness: the call recorded by the concrete non-streaming run
carries the fixed model identifier. -/
theorem c10_witness : ((modelId, ([3] : Bytes)) : String × Bytes).1 = modelId :=
  (c10_fixed_model_id encodeW invokeW invokeSW decodeW "hi").1 (modelId, [3]) (by decide)
